import Mathlib

/-!
# Verification of `main.go` (postal code → temperature endpoint)

A shallow embedding of the request handler of `main.go` and of the two
resolvers it calls, followed by theorems about the handler's responses.

Conventions of the embedding:

* a Go `string` is a Lean `String`; Go's `len(s)` is the number of bytes of
  the UTF-8 encoding, `String.utf8ByteSize`;
* a Go `error` is represented by its text (`err.Error()`), `none` is `nil`;
* a Go `float64` is `Float64` below: IEEE 754 binary64 with round to nearest,
  ties to even;
* everything outside the process (configuration source, URL parser, HTTP
  transport and the remote services) is a `World`, a parameter of the
  embedding; the handler returns the response it wrote together with the
  trace of the resolver invocations and HTTP requests it made;
* an upstream body is given by what the JSON decoder reads from it (the first
  JSON value, or an error), and the body written by `json.Encoder` is kept as
  the encoded map rather than as bytes;
* lines printed with `fmt.Println` are not part of the response and are left
  out.
-/

set_option exponentiation.threshold 5000
set_option maxRecDepth 100000

namespace CloudRun

/-! ## IEEE 754 binary64 -/

/-- A Go `float64`. A finite value is a sign and a magnitude counted in units
of `2 ^ (-1074)` (the smallest positive subnormal): every finite binary64
number is such a multiple, with `k < 2 ^ 2098`. -/
inductive Float64 where
  | finite (neg : Bool) (k : Nat)
  | inf (neg : Bool)
  | nan
  deriving DecidableEq, Repr

namespace Float64

/-- Number of binary digits of `n`, by halving; `fuel` bounds the number of steps. -/
def bitLenAux : Nat → Nat → Nat
  | 0, _ => 0
  | fuel + 1, n => if n = 0 then 0 else bitLenAux fuel (n / 2) + 1

/-- Number of binary digits of `n` (`0` for `0`). -/
def bitLen (n : Nat) : Nat := bitLenAux n n

/-- Round the non-negative rational `N / D`, counted in units of `2 ^ (-1074)`,
to the nearest binary64 magnitude (53 significant bits, ties to even).
`none` is overflow: the rounded magnitude is `2 ^ 1024` or more. -/
def roundUnits (N D : Nat) : Option Nat :=
  let sh := bitLen (N / D) - 53
  let D1 := D * 2 ^ sh
  let q := N / D1
  let r := N % D1
  let R := if 2 * r < D1 then q else if D1 < 2 * r then q + 1 else if q % 2 = 0 then q else q + 1
  let k := R * 2 ^ sh
  if k < 2 ^ 2098 then some k else none

/-- The binary64 nearest to `± N / D` units. -/
def ofUnits (neg : Bool) (N D : Nat) : Float64 :=
  match roundUnits N D with
  | some k => finite neg k
  | none => inf neg

/-- The binary64 nearest to the rational `± n / d`: the value of a decimal
constant of the source, or of a number parsed by `strconv.ParseFloat`. -/
def ofRatio (neg : Bool) (n d : Nat) : Float64 := ofUnits neg (n * 2 ^ 1074) d

/-- The binary64 value of a natural number constant. -/
def ofNat (n : Nat) : Float64 := ofRatio false n 1

/-- Positive zero, the zero value of `float64`. -/
def zero : Float64 := finite false 0

/-- Go's `x + y` on `float64`. -/
def add : Float64 → Float64 → Float64
  | nan, _ => nan
  | _, nan => nan
  | inf a, inf b => if a = b then inf a else nan
  | inf a, finite _ _ => inf a
  | finite _ _, inf b => inf b
  | finite a j, finite b k =>
    if a = b then ofUnits a (j + k) 1
    else if k < j then ofUnits a (j - k) 1
    else if j < k then ofUnits b (k - j) 1
    else finite false 0

/-- Go's `x * y` on `float64`. -/
def mul : Float64 → Float64 → Float64
  | nan, _ => nan
  | _, nan => nan
  | inf a, inf b => inf (xor a b)
  | inf a, finite b k => if k = 0 then nan else inf (xor a b)
  | finite a j, inf b => if j = 0 then nan else inf (xor a b)
  | finite a j, finite b k => ofUnits (xor a b) (j * k) (2 ^ 1074)

/-- Go's `x / y` on `float64`. -/
def div : Float64 → Float64 → Float64
  | nan, _ => nan
  | _, nan => nan
  | inf _, inf _ => nan
  | inf a, finite b _ => inf (xor a b)
  | finite a _, inf b => finite (xor a b) 0
  | finite a j, finite b k =>
    if k = 0 then (if j = 0 then nan else inf (xor a b))
    else ofUnits (xor a b) (j * 2 ^ 1074) k

/-- Neither an infinity nor a NaN: the values `encoding/json` can encode. -/
def isFinite : Float64 → Bool
  | finite _ _ => true
  | _ => false

end Float64

/-! ## JSON documents and `encoding/json` decoding -/

/-- A JSON value as read by the scanner of `encoding/json`. A number keeps its
literal as written and the decimal it denotes: sign, digits and power of ten
(`± digits * 10 ^ exp10`). -/
inductive JSON where
  | null
  | bool (b : Bool)
  | number (literal : String) (neg : Bool) (digits : Nat) (exp10 : Int)
  | string (s : String)
  | array (elems : List JSON)
  | object (members : List (String × JSON))

/-- A Go `interface{}` holding what `encoding/json` stores in one. -/
inductive GoAny where
  | nil
  | bool (b : Bool)
  | float64 (f : Float64)
  | string (s : String)
  | slice (elems : List GoAny)
  | map (m : List (String × GoAny))

/-- Go's `m[key]` on a map kept as the list of its assignments in order: the
last assignment to `key` wins; `none` when the key was never assigned. -/
def mapIndex {V : Type} : List (String × V) → String → Option V
  | [], _ => none
  | (k, v) :: rest, key =>
    match mapIndex rest key with
    | some later => some later
    | none => if k = key then some v else none

/-- Text of a `json.UnmarshalTypeError`. -/
def unmarshalTypeError (value goType : String) : String :=
  "json: cannot unmarshal " ++ value ++ " into Go value of type " ++ goType

/-- The name `encoding/json` gives the kind of a JSON value in its errors. -/
def JSON.kind : JSON → String
  | .null => "null"
  | .bool _ => "bool"
  | .number _ _ _ _ => "number"
  | .string _ => "string"
  | .array _ => "array"
  | .object _ => "object"

/-- The function `strconv.ParseFloat(s, 64)` on a JSON number literal: the
nearest binary64, `none` (a range error) when that is an infinity. -/
def parseFloat (neg : Bool) (digits : Nat) (exp10 : Int) : Option Float64 :=
  let f := if 0 ≤ exp10 then Float64.ofRatio neg (digits * 10 ^ exp10.toNat) 1
           else Float64.ofRatio neg digits (10 ^ (-exp10).toNat)
  if f.isFinite then some f else none

/-- Decoding of the members of a JSON object into a `map[string]string`:
a string is stored, `null` stores the zero value `""` without error, anything
else is an `UnmarshalTypeError`. -/
def decodeStringMembers : List (String × JSON) → Except String (List (String × String))
  | [] => .ok []
  | (k, .string s) :: rest => (decodeStringMembers rest).map fun m => (k, s) :: m
  | (k, .null) :: rest => (decodeStringMembers rest).map fun m => (k, "") :: m
  | (_, v) :: _ => .error (unmarshalTypeError v.kind "string")

/-- The call `json.NewDecoder(body).Decode(&m)` for `m` a `map[string]string`,
on the outcome of reading the first JSON value of the body (`error` when the
body is not valid JSON or cannot be read). A top-level `null` leaves the map
without entries and is no error. -/
def decodeStringMap : Except String JSON → Except String (List (String × String))
  | .error e => .error e
  | .ok (.object members) => decodeStringMembers members
  | .ok .null => .ok []
  | .ok v => .error (unmarshalTypeError v.kind "map[string]string")

mutual
/-- Decoding of a JSON value into an `interface{}`; the only failure is a
number outside the range of `float64`, whose error names the literal. -/
def decodeAny : JSON → Except String GoAny
  | .null => .ok .nil
  | .bool b => .ok (.bool b)
  | .number literal neg digits exp10 =>
    match parseFloat neg digits exp10 with
    | some f => .ok (.float64 f)
    | none => .error (unmarshalTypeError ("number " ++ literal) "float64")
  | .string s => .ok (.string s)
  | .array elems => (decodeAnyList elems).map .slice
  | .object members => (decodeAnyMembers members).map .map
/-- Decoding of the elements of a JSON array. -/
def decodeAnyList : List JSON → Except String (List GoAny)
  | [] => .ok []
  | v :: rest =>
    match decodeAny v with
    | .error e => .error e
    | .ok a => (decodeAnyList rest).map fun as => a :: as
/-- Decoding of the members of a JSON object. -/
def decodeAnyMembers : List (String × JSON) → Except String (List (String × GoAny))
  | [] => .ok []
  | (k, v) :: rest =>
    match decodeAny v with
    | .error e => .error e
    | .ok a => (decodeAnyMembers rest).map fun m => (k, a) :: m
end

/-- The call `json.NewDecoder(body).Decode(&m)` for `m` a
`map[string]interface{}`. -/
def decodeAnyMap : Except String JSON → Except String (List (String × GoAny))
  | .error e => .error e
  | .ok (.object members) => decodeAnyMembers members
  | .ok .null => .ok []
  | .ok v => .error (unmarshalTypeError v.kind "map[string]interface {}")

/-! ## The world outside the process -/

/-- HTTP status codes of `net/http` used by `main.go`. -/
def StatusOK : Nat := 200
/-- The constant `http.StatusNotFound`. -/
def StatusNotFound : Nat := 404
/-- The constant `http.StatusUnprocessableEntity`. -/
def StatusUnprocessableEntity : Nat := 422
/-- The constant `http.StatusInternalServerError`. -/
def StatusInternalServerError : Nat := 500

/-- The struct `conf` of `main.go`. -/
structure conf where
  WeatherApiKey : String
  deriving DecidableEq, Repr

/-- An outbound `*http.Request` built by `http.NewRequest("GET", url, nil)`,
with the headers set on it, in the order of the `Header.Set` calls. -/
structure Request where
  url : String
  header : List (String × String)
  deriving DecidableEq, Repr

/-- An upstream `*http.Response`: its status code and what the JSON decoder
reads from its body, either the first JSON value or the text of the error
(syntax error, empty body, read failure). -/
structure Response where
  StatusCode : Nat
  Body : Except String JSON

/-- Everything `main.go` reaches outside the process. `none` and `.ok` are Go's
`err == nil`; an error is its text. -/
structure World where
  /-- Result of `viper.ReadInConfig()`. -/
  ReadInConfig : Option String
  /-- Result of `viper.Unmarshal(&cfg)`. -/
  Unmarshal : Except String conf
  /-- Error of `http.NewRequest("GET", url, nil)`, when `url` does not parse. -/
  NewRequest : String → Option String
  /-- The function `url.QueryEscape`. -/
  QueryEscape : String → String
  /-- The method `client.Do`: a transport error or the upstream's response. -/
  Do : Request → Except String Response

/-- What the handler did towards the outside, in order. -/
inductive Event where
  | invokeGetLocationByZipCode (zipCode : String)
  | invokeGetTemperatureByLocation (location apiKey : String)
  | send (request : Request)
  deriving DecidableEq, Repr

/-- One write to the response body: plain bytes, or the line written by
`json.NewEncoder(w).Encode` for a map with the given entries. -/
inductive Chunk where
  | bytes (s : String)
  | jsonLine (fields : List (String × Float64))
  deriving DecidableEq, Repr

/-- The state of an `http.ResponseWriter`: the status code sent, if any, and
the writes to the body. -/
structure ResponseWriter where
  status : Option Nat
  body : List Chunk
  deriving DecidableEq, Repr

/-- A fresh response writer. -/
def ResponseWriter.new : ResponseWriter := ⟨none, []⟩

/-- The method `w.WriteHeader(code)`: only the first call sets the status. -/
def ResponseWriter.WriteHeader (w : ResponseWriter) (code : Nat) : ResponseWriter :=
  match w.status with
  | none => { w with status := some code }
  | some _ => w

/-- The method `w.Write(data)`: sends status 200 first if none was sent. -/
def ResponseWriter.Write (w : ResponseWriter) (data : Chunk) : ResponseWriter :=
  { status := some (w.status.getD StatusOK), body := w.body ++ [data] }

/-- The call `json.NewEncoder(w).Encode(m)` for a map of `float64`: an
infinity or NaN is an `UnsupportedValueError` and nothing is written;
`main.go` drops the returned error. -/
def ResponseWriter.Encode (w : ResponseWriter) (fields : List (String × Float64)) :
    ResponseWriter :=
  if fields.all (fun kv => kv.2.isFinite) then w.Write (.jsonLine fields) else w

/-! ## `main.go` -/

/-- The function `invalidZipCodeResponse`. -/
def invalidZipCodeResponse (w : ResponseWriter) : ResponseWriter :=
  (w.WriteHeader StatusUnprocessableEntity).Write (.bytes "invalid zipcode")

/-- The function `zipCodeNotFoundResponse`. -/
def zipCodeNotFoundResponse (w : ResponseWriter) : ResponseWriter :=
  (w.WriteHeader StatusNotFound).Write (.bytes "cannot find zipcode")

/-- The function `internalServerErrorResponse`. -/
def internalServerErrorResponse (w : ResponseWriter) (err : String) : ResponseWriter :=
  (w.WriteHeader StatusInternalServerError).Write (.bytes err)

/-- The function `GetLocationByZipCode`: the returned `(string, error)` and
the requests sent. -/
def GetLocationByZipCode (world : World) (zipCode : String) :
    (String × Option String) × List Event :=
  let url := "https://viacep.com.br/ws/" ++ zipCode ++ "/json/"
  match world.NewRequest url with
  | some err => (("", some err), [])
  | none =>
    let request : Request := ⟨url, []⟩
    match world.Do request with
    | .error err => (("", some err), [.send request])
    | .ok response =>
      if response.StatusCode ≠ StatusOK then (("", none), [.send request])
      else
        match decodeStringMap response.Body with
        | .error err => (("", some err), [.send request])
        | .ok jsonResponse => (((mapIndex jsonResponse "localidade").getD "", none), [.send request])

/-- The function `GetTemperatureByLocation`: the returned `(float64, error)`
and the requests sent. -/
def GetTemperatureByLocation (world : World) (location apiKey : String) :
    (Float64 × Option String) × List Event :=
  let uri := "https://api.weatherapi.com/v1/current.json"
  let uri := uri ++ ("?q=" ++ world.QueryEscape location)
  match world.NewRequest uri with
  | some err => ((Float64.zero, some err), [])
  | none =>
    let request : Request :=
      ⟨uri, [("accept", "application/json"), ("Content-Type", "application/json"), ("key", apiKey)]⟩
    match world.Do request with
    | .error err => ((Float64.zero, some err), [.send request])
    | .ok response =>
      if response.StatusCode ≠ StatusOK then ((Float64.zero, none), [.send request])
      else
        match decodeAnyMap response.Body with
        | .error err => ((Float64.zero, some err), [.send request])
        | .ok jsonResponse =>
          match mapIndex jsonResponse "current" with
          | some (.map current) =>
            match mapIndex current "temp_c" with
            | some (.float64 tempC) => ((tempC, none), [.send request])
            | _ => ((Float64.zero, none), [.send request])
          | _ => ((Float64.zero, none), [.send request])

/-- The function `LoadConfig`: `.error` is a panic with that value, `.ok` the
returned `(*conf, error)`. -/
def LoadConfig (world : World) (_path : String) : Except String (conf × Option String) :=
  match world.ReadInConfig with
  | some err => .error err
  | none =>
    match world.Unmarshal with
    | .error err => .error err
    | .ok cfg => .ok (cfg, none)

/-- The parsed query of the inbound request, `url.Values`: a
`map[string][]string` kept as its list of assignments. -/
abbrev Values := List (String × List String)

/-- The method `Values.Get`: the first value of the key, `""` when there is none. -/
def Values.Get (v : Values) (key : String) : String :=
  match mapIndex v key with
  | some (first :: _) => first
  | _ => ""

/-- How a run of the handler ends: a panic, or a return with the response
written and the trace of what was invoked and sent. -/
inductive Outcome where
  | panicked (value : String)
  | returned (w : ResponseWriter) (trace : List Event)
  deriving DecidableEq, Repr

/-- Kelvin from Celsius, `temperatureC + 273.15`. -/
def tempK (temperatureC : Float64) : Float64 :=
  Float64.add temperatureC (Float64.ofRatio false 27315 100)

/-- Fahrenheit from Celsius, `(temperatureC * 9 / 5) + 32`. -/
def tempF (temperatureC : Float64) : Float64 :=
  Float64.add (Float64.div (Float64.mul temperatureC (Float64.ofNat 9)) (Float64.ofNat 5))
    (Float64.ofNat 32)

/-- The function `handler`, on a fresh response writer and the parsed query
of the request. -/
def handler (world : World) (query : Values) : Outcome :=
  let w := ResponseWriter.new
  match LoadConfig world "." with
  | .error value => .panicked value
  | .ok (_, some err) => .returned (internalServerErrorResponse w err) []
  | .ok (cfg, none) =>
    let cep := Values.Get query "cep"
    if cep = "" ∨ cep.utf8ByteSize ≠ 8 then .returned (invalidZipCodeResponse w) []
    else
      let r1 := GetLocationByZipCode world cep
      let trace := Event.invokeGetLocationByZipCode cep :: r1.2
      match r1.1 with
      | (_, some err) => .returned (internalServerErrorResponse w err) trace
      | (location, none) =>
        if location = "" then .returned (zipCodeNotFoundResponse w) trace
        else
          let r2 := GetTemperatureByLocation world location cfg.WeatherApiKey
          let trace := trace ++ Event.invokeGetTemperatureByLocation location cfg.WeatherApiKey :: r2.2
          match r2.1 with
          | (_, some err) => .returned (internalServerErrorResponse w err) trace
          | (temperatureC, none) =>
            let response := [("temp_C", temperatureC), ("temp_K", tempK temperatureC),
              ("temp_F", tempF temperatureC)]
            .returned ((w.WriteHeader StatusOK).Encode response) trace

/-- The request `GetLocationByZipCode` sends for a code. -/
def locationRequest (zipCode : String) : Request :=
  ⟨"https://viacep.com.br/ws/" ++ zipCode ++ "/json/", []⟩

/-- The request `GetTemperatureByLocation` sends for a location and a credential. -/
def weatherRequest (world : World) (location apiKey : String) : Request :=
  ⟨"https://api.weatherapi.com/v1/current.json" ++ ("?q=" ++ world.QueryEscape location),
   [("accept", "application/json"), ("Content-Type", "application/json"), ("key", apiKey)]⟩

/-! ## Shapes of upstream bodies, in the words of the specification -/

/-- A JSON string or `null`: the values a flat string-to-string mapping may hold
for the decoder to accept it. -/
def JSON.isStringOrNull : JSON → Bool
  | .string _ => true
  | .null => true
  | _ => false

/-- The string a member value stands for: itself for a string, `""` otherwise. -/
def JSON.asString : JSON → String
  | .string s => s
  | _ => ""

/-- A JSON object or a top-level `null`. -/
def JSON.isObjectOrNull : JSON → Bool
  | .object _ => true
  | .null => true
  | _ => false

/-- The decimal `digits * 10 ^ exp10` counted in units of `2 ^ (-1074)`, as a
numerator and a denominator. -/
def literalUnits (digits : Nat) (exp10 : Int) : Nat × Nat :=
  if 0 ≤ exp10 then (digits * 10 ^ exp10.toNat * 2 ^ 1074, 1)
  else (digits * 2 ^ 1074, 10 ^ (-exp10).toNat)

/-- The magnitude `k` is the ratio `N / D` (both in units of `2 ^ (-1074)`)
correctly rounded to binary64: below `2 ^ 1024`, and for the spacing `2 ^ sh`
of binary64 around `N / D` (the finest spacing, or the one at which `N / D`
has 53 significant bits) a multiple of that spacing at most half a spacing
away from `N / D`. -/
def IsRoundedTo (N D k : Nat) : Prop :=
  k < 2 ^ 2098 ∧
  ∃ sh, N < 2 ^ 53 * (D * 2 ^ sh) ∧ (sh = 0 ∨ 2 ^ 52 * (D * 2 ^ sh) ≤ N) ∧ 2 ^ sh ∣ k ∧
    2 * (k * D) ≤ 2 * N + D * 2 ^ sh ∧ 2 * N ≤ 2 * (k * D) + D * 2 ^ sh

/-! ## Scenarios -/

/-- A world for the scenarios: the configuration loads with the credential
`key`, every URL parses, `url.QueryEscape` leaves the location unchanged, the
location service answers `location` to the lookup of `cep`, and every other
request gets `weather`. -/
def scenario (key cep : String) (location weather : Except String Response) : World where
  ReadInConfig := none
  Unmarshal := .ok ⟨key⟩
  NewRequest := fun _ => none
  QueryEscape := fun s => s
  Do := fun request =>
    if request.url = "https://viacep.com.br/ws/" ++ cep ++ "/json/" then location else weather

/-- The query `?cep=<code>`. -/
def cepQuery (code : String) : Values := [("cep", [code])]

/-- A literal for the decimal `± digits * 10 ^ exp10`, in exponent form. -/
def numberLiteral (neg : Bool) (digits : Nat) (exp10 : Int) : String :=
  (if neg then "-" else "") ++ toString digits ++ "e" ++ toString exp10

/-- A weather body `{"current": {"temp_c": <number>}}`. -/
def weatherBody (neg : Bool) (digits : Nat) (exp10 : Int) : Except String JSON :=
  .ok (.object [("current", .object [("temp_c",
    .number (numberLiteral neg digits exp10) neg digits exp10)])])

/-- A location body `{"localidade": <name>}`. -/
def locationBody (name : String) : Except String JSON :=
  .ok (.object [("localidade", .string name)])

/-! ## Basic facts about the embedding -/

namespace Float64

/-- No binary digits in zero. -/
theorem bitLenAux_zero (fuel : Nat) : bitLenAux fuel 0 = 0 := by
  cases fuel <;> simp [bitLenAux]

/-- With enough fuel, `bitLenAux` is the position of the leading binary digit. -/
theorem bitLenAux_spec : ∀ fuel n, n ≤ fuel →
    n < 2 ^ bitLenAux fuel n ∧ (0 < n → 2 ^ (bitLenAux fuel n - 1) ≤ n) := by
  intro fuel
  induction fuel with
  | zero =>
    intro n hn
    have : n = 0 := by omega
    subst this
    simp [bitLenAux]
  | succ fuel ih =>
    intro n hn
    by_cases h0 : n = 0
    · subst h0
      simp [bitLenAux]
    · have hhalf : n / 2 ≤ fuel := by omega
      obtain ⟨h1, h2⟩ := ih (n / 2) hhalf
      simp only [bitLenAux, if_neg h0, Nat.add_sub_cancel]
      constructor
      · rw [pow_succ]
        omega
      · intro _
        by_cases hq : n / 2 = 0
        · rw [hq, bitLenAux_zero]
          simp
          omega
        · have h3 := h2 (Nat.pos_of_ne_zero hq)
          have hb : bitLenAux fuel (n / 2) ≠ 0 := by
            intro hb
            rw [hb] at h1
            simp at h1
            exact hq h1
          obtain ⟨b, hb2⟩ := Nat.exists_eq_succ_of_ne_zero hb
          rw [hb2] at h3 ⊢
          simp only [Nat.succ_sub_one] at h3
          rw [pow_succ]
          omega

/-- The number `n` has exactly `bitLen n` binary digits. -/
theorem bitLen_spec (n : Nat) :
    n < 2 ^ bitLen n ∧ (0 < n → 2 ^ (bitLen n - 1) ≤ n) :=
  bitLenAux_spec n n (Nat.le_refl n)

/-- Zero has no binary digits. -/
theorem bitLen_zero : bitLen 0 = 0 := rfl

/-- The rounding of `roundUnits` is correct: its result is within half a
spacing of the ratio, at the spacing of binary64 around the ratio. -/
theorem roundUnits_spec (N D k : Nat) (hD : 0 < D) (h : roundUnits N D = some k) :
    IsRoundedTo N D k := by
  unfold IsRoundedTo
  unfold roundUnits at h
  simp only at h
  obtain ⟨hb1, hb2⟩ := bitLen_spec (N / D)
  generalize hsh : bitLen (N / D) - 53 = sh at h
  have hP : 0 < 2 ^ sh := Nat.two_pow_pos sh
  generalize hD1 : D * 2 ^ sh = D1 at h
  have hD1pos : 0 < D1 := by
    rw [← hD1]
    exact Nat.mul_pos hD hP
  have hdm : D1 * (N / D1) + N % D1 = N := Nat.div_add_mod N D1
  have hr : N % D1 < D1 := Nat.mod_lt _ hD1pos
  have hq : N / D1 = (N / D) / 2 ^ sh := by
    rw [← hD1, Nat.div_div_eq_div_mul]
  have hble : bitLen (N / D) ≤ sh + 53 := by omega
  have hqlt : N / D1 < 2 ^ 53 := by
    rw [hq]
    apply Nat.div_lt_of_lt_mul
    calc N / D < 2 ^ bitLen (N / D) := hb1
      _ ≤ 2 ^ (sh + 53) := Nat.pow_le_pow_right (by decide) hble
      _ = 2 ^ sh * 2 ^ 53 := by rw [pow_add]
  have hqge : sh ≠ 0 → 2 ^ 52 ≤ N / D1 := by
    intro hne
    have hpos : 0 < N / D := by
      rcases Nat.eq_zero_or_pos (N / D) with h0 | h0
      · rw [h0, bitLen_zero] at hsh
        omega
      · exact h0
    have h2 := hb2 hpos
    have hbe : bitLen (N / D) - 1 = 52 + sh := by omega
    rw [hbe, pow_add] at h2
    rw [hq]
    exact (Nat.le_div_iff_mul_le hP).mpr h2
  generalize hR : (if 2 * (N % D1) < D1 then N / D1
      else if D1 < 2 * (N % D1) then N / D1 + 1
      else if N / D1 % 2 = 0 then N / D1 else N / D1 + 1) = R at h
  have hRq : (R = N / D1 ∧ 2 * (N % D1) ≤ D1) ∨ (R = N / D1 + 1 ∧ D1 ≤ 2 * (N % D1)) := by
    rw [← hR]
    split
    · left
      exact ⟨rfl, by omega⟩
    · split
      · right
        exact ⟨rfl, by omega⟩
      · split
        · left
          exact ⟨rfl, by omega⟩
        · right
          exact ⟨rfl, by omega⟩
  split at h
  · rename_i hlt
    cases h
    refine ⟨hlt, sh, ?_, ?_, Dvd.intro_left _ rfl, ?_, ?_⟩
    · rw [hD1]
      exact (Nat.div_lt_iff_lt_mul hD1pos).mp hqlt
    · by_cases hz : sh = 0
      · exact Or.inl hz
      · right
        rw [hD1]
        exact (Nat.le_div_iff_mul_le hD1pos).mp (hqge hz)
    · have hk : R * 2 ^ sh * D = D1 * R := by
        rw [← hD1]
        ring
      rw [hk, hD1]
      rcases hRq with ⟨h1, h2⟩ | ⟨h1, h2⟩
      · rw [h1]
        omega
      · rw [h1, Nat.mul_add, Nat.mul_one]
        omega
    · have hk : R * 2 ^ sh * D = D1 * R := by
        rw [← hD1]
        ring
      rw [hk, hD1]
      rcases hRq with ⟨h1, h2⟩ | ⟨h1, h2⟩
      · rw [h1]
        omega
      · rw [h1, Nat.mul_add, Nat.mul_one]
        omega
  · cases h

end Float64

/-- A finite result of `ofUnits` is the magnitude `roundUnits` gives, with the sign. -/
theorem Float64.ofUnits_finite (neg : Bool) (N D : Nat) (t : Float64)
    (h : (if (Float64.ofUnits neg N D).isFinite then some (Float64.ofUnits neg N D) else none)
      = some t) :
    ∃ k, Float64.roundUnits N D = some k ∧ t = .finite neg k := by
  unfold Float64.ofUnits at h
  cases hr : Float64.roundUnits N D with
  | none =>
    rw [hr] at h
    simp [Float64.isFinite] at h
  | some k =>
    rw [hr] at h
    simp only [Float64.isFinite, if_true] at h
    cases h
    exact ⟨k, rfl, rfl⟩

/-- A number literal within range parses to the binary64 of its sign whose
magnitude is the literal's value correctly rounded. -/
theorem parseFloat_spec (neg : Bool) (digits : Nat) (exp10 : Int) (t : Float64)
    (h : parseFloat neg digits exp10 = some t) :
    ∃ k, t = .finite neg k ∧
      IsRoundedTo (literalUnits digits exp10).1 (literalUnits digits exp10).2 k := by
  unfold parseFloat at h
  unfold literalUnits
  by_cases he : 0 ≤ exp10
  · rw [if_pos he] at h ⊢
    obtain ⟨k, hr, ht⟩ := Float64.ofUnits_finite neg _ _ t h
    exact ⟨k, ht, Float64.roundUnits_spec _ _ k Nat.one_pos hr⟩
  · rw [if_neg he] at h ⊢
    obtain ⟨k, hr, ht⟩ := Float64.ofUnits_finite neg _ _ t h
    exact ⟨k, ht, Float64.roundUnits_spec _ _ k (pow_pos (by decide : (0 : ℕ) < 10) _) hr⟩

theorem LoadConfig_ok_none (world : World) (path : String) (r : conf × Option String)
    (h : LoadConfig world path = .ok r) : r.2 = none := by
  unfold LoadConfig at h
  cases hr : world.ReadInConfig with
  | some e => simp [hr] at h
  | none =>
    cases hu : world.Unmarshal with
    | error e => simp [hr, hu] at h
    | ok cfg =>
      simp [hr, hu] at h
      cases h
      rfl

theorem Values_Get_absent (query : Values) (key : String) (h : mapIndex query key = none) :
    Values.Get query key = "" := by
  simp [Values.Get, h]

theorem utf8ByteSize_empty : ("" : String).utf8ByteSize = 0 := by
  decide

/-- A code of byte length 8 passes the validation of `handler`. -/
theorem valid_of_len (cep : String) (hlen : cep.utf8ByteSize = 8) :
    ¬ (cep = "" ∨ cep.utf8ByteSize ≠ 8) := by
  rintro (h | h)
  · rw [h, utf8ByteSize_empty] at hlen
    exact absurd hlen (by decide)
  · exact h hlen

/-- The handler after a successful configuration load and a code of byte
length 8: the rest of the function, from the call of `GetLocationByZipCode`. -/
theorem handler_of_valid (world : World) (query : Values) (cfg : conf)
    (hcfg : LoadConfig world "." = .ok (cfg, none))
    (hlen : (Values.Get query "cep").utf8ByteSize = 8) :
    handler world query =
      (let w := ResponseWriter.new
       let cep := Values.Get query "cep"
       let r1 := GetLocationByZipCode world cep
       let trace := Event.invokeGetLocationByZipCode cep :: r1.2
       match r1.1 with
       | (_, some err) => .returned (internalServerErrorResponse w err) trace
       | (location, none) =>
         if location = "" then .returned (zipCodeNotFoundResponse w) trace
         else
           let r2 := GetTemperatureByLocation world location cfg.WeatherApiKey
           let trace := trace ++ Event.invokeGetTemperatureByLocation location cfg.WeatherApiKey :: r2.2
           match r2.1 with
           | (_, some err) => .returned (internalServerErrorResponse w err) trace
           | (temperatureC, none) =>
             let response := [("temp_C", temperatureC), ("temp_K", tempK temperatureC),
               ("temp_F", tempF temperatureC)]
             .returned ((w.WriteHeader StatusOK).Encode response) trace) := by
  unfold handler
  simp only [hcfg]
  rw [if_neg (valid_of_len _ hlen)]

/-- The requests sent by `GetLocationByZipCode`: none, or the one GET to the
location service. -/
theorem GetLocationByZipCode_trace (world : World) (zipCode : String) :
    (GetLocationByZipCode world zipCode).2 = [] ∨
    (GetLocationByZipCode world zipCode).2 =
      [.send ⟨"https://viacep.com.br/ws/" ++ zipCode ++ "/json/", []⟩] := by
  unfold GetLocationByZipCode
  simp only
  split
  · exact Or.inl rfl
  · split
    · exact Or.inr rfl
    · split
      · exact Or.inr rfl
      · split <;> exact Or.inr rfl

/-- No event of `GetLocationByZipCode` is an invocation of the temperature resolver. -/
theorem GetLocationByZipCode_no_temperature (world : World) (zipCode location apiKey : String) :
    Event.invokeGetTemperatureByLocation location apiKey ∉ (GetLocationByZipCode world zipCode).2 := by
  rcases GetLocationByZipCode_trace world zipCode with h | h <;> simp [h]

/-- Indexing commutes with mapping the values of a map. -/
theorem mapIndex_map {V W : Type} (f : V → W) (m : List (String × V)) (key : String) :
    mapIndex (m.map fun kv => (kv.1, f kv.2)) key = (mapIndex m key).map f := by
  induction m with
  | nil => rfl
  | cons kv rest ih =>
    obtain ⟨k, v⟩ := kv
    simp only [List.map_cons, mapIndex, ih]
    cases mapIndex rest key with
    | some later => rfl
    | none =>
      by_cases hk : k = key
      · simp [hk]
      · simp [hk]

/-- Members that are all strings or `null` decode, each to the string it stands for. -/
theorem decodeStringMembers_flat (members : List (String × JSON))
    (hflat : ∀ kv ∈ members, kv.2.isStringOrNull = true) :
    decodeStringMembers members = .ok (members.map fun kv => (kv.1, kv.2.asString)) := by
  induction members with
  | nil => rfl
  | cons kv rest ih =>
    obtain ⟨k, v⟩ := kv
    have hrest := ih (fun kv hkv => hflat kv (List.mem_cons_of_mem _ hkv))
    have hv := hflat (k, v) (List.mem_cons_self _ _)
    cases v with
    | string s => simp [decodeStringMembers, hrest, Except.map, JSON.asString]
    | null => simp [decodeStringMembers, hrest, Except.map, JSON.asString]
    | bool b => simp [JSON.isStringOrNull] at hv
    | number lit neg d e => simp [JSON.isStringOrNull] at hv
    | array xs => simp [JSON.isStringOrNull] at hv
    | object ms => simp [JSON.isStringOrNull] at hv

/-- A member that is neither a string nor `null` makes the decoding fail. -/
theorem decodeStringMembers_not_flat (members : List (String × JSON))
    (hbad : ∃ kv ∈ members, kv.2.isStringOrNull = false) :
    ∃ e, decodeStringMembers members = .error e := by
  induction members with
  | nil =>
    obtain ⟨kv, hkv, _⟩ := hbad
    cases hkv
  | cons kv rest ih =>
    obtain ⟨k, v⟩ := kv
    by_cases hv : v.isStringOrNull = true
    · have hrest : ∃ e, decodeStringMembers rest = .error e := by
        apply ih
        obtain ⟨kv, hkv, hkv2⟩ := hbad
        rcases List.mem_cons.mp hkv with h | h
        · subst h
          simp [hv] at hkv2
        · exact ⟨kv, h, hkv2⟩
      obtain ⟨e, he⟩ := hrest
      cases v with
      | string s => exact ⟨e, by simp [decodeStringMembers, he, Except.map]⟩
      | null => exact ⟨e, by simp [decodeStringMembers, he, Except.map]⟩
      | bool b => simp [JSON.isStringOrNull] at hv
      | number lit neg d e => simp [JSON.isStringOrNull] at hv
      | array xs => simp [JSON.isStringOrNull] at hv
      | object ms => simp [JSON.isStringOrNull] at hv
    · cases v with
      | string s => simp [JSON.isStringOrNull] at hv
      | null => simp [JSON.isStringOrNull] at hv
      | bool b => exact ⟨_, rfl⟩
      | number lit neg d e => exact ⟨_, rfl⟩
      | array xs => exact ⟨_, rfl⟩
      | object ms => exact ⟨_, rfl⟩

/-- What `GetLocationByZipCode` returns once its request was built and sent
and answered with status 200: the outcome of decoding the body. -/
theorem GetLocationByZipCode_of_200 (world : World) (zipCode : String) (response : Response)
    (hreq : world.NewRequest (locationRequest zipCode).url = none)
    (hdo : world.Do (locationRequest zipCode) = .ok response)
    (hstatus : response.StatusCode = 200) :
    GetLocationByZipCode world zipCode =
      (match decodeStringMap response.Body with
       | .error err => (("", some err), [.send (locationRequest zipCode)])
       | .ok jsonResponse =>
         (((mapIndex jsonResponse "localidade").getD "", none), [.send (locationRequest zipCode)])) := by
  unfold locationRequest at hreq hdo
  unfold GetLocationByZipCode
  have hst : ¬ response.StatusCode ≠ StatusOK := by
    rw [hstatus]
    decide
  simp only [hreq, hdo, if_neg hst]
  rfl

/-- Indexing a decoded object: the key is absent on both sides, or the decoded
entry is the decoding of the last member with that key. -/
theorem decodeAnyMembers_mapIndex (members : List (String × JSON)) (key : String) :
    ∀ m, decodeAnyMembers members = .ok m →
      (mapIndex members key = none ∧ mapIndex m key = none) ∨
      ∃ v a, mapIndex members key = some v ∧ decodeAny v = .ok a ∧ mapIndex m key = some a := by
  induction members with
  | nil =>
    intro m hm
    simp only [decodeAnyMembers] at hm
    cases hm
    exact Or.inl ⟨rfl, rfl⟩
  | cons kv rest ih =>
    intro m hm
    obtain ⟨k, v⟩ := kv
    simp only [decodeAnyMembers] at hm
    cases hv : decodeAny v with
    | error e => simp [hv] at hm
    | ok a =>
      cases hrest : decodeAnyMembers rest with
      | error e => simp [hv, hrest, Except.map] at hm
      | ok m1 =>
        simp only [hv, hrest, Except.map] at hm
        cases hm
        rcases ih m1 hrest with ⟨h1, h2⟩ | ⟨w, b, h1, h2, h3⟩
        · by_cases hk : k = key
          · right
            exact ⟨v, a, by simp [mapIndex, h1, hk], hv, by simp [mapIndex, h2, hk]⟩
          · left
            exact ⟨by simp [mapIndex, h1, hk], by simp [mapIndex, h2, hk]⟩
        · right
          exact ⟨w, b, by simp [mapIndex, h1], h2, by simp [mapIndex, h3]⟩

/-- Only a JSON object decodes to a Go map. -/
theorem decodeAny_map (v : JSON) (c : List (String × GoAny)) (h : decodeAny v = .ok (.map c)) :
    ∃ current, v = .object current ∧ decodeAnyMembers current = .ok c := by
  cases v with
  | null => simp [decodeAny] at h
  | bool b => simp [decodeAny] at h
  | string s => simp [decodeAny] at h
  | number lit neg d e =>
    simp only [decodeAny] at h
    split at h <;> simp at h
  | array xs =>
    simp only [decodeAny] at h
    cases hxs : decodeAnyList xs <;> simp [hxs, Except.map] at h
  | object ms =>
    simp only [decodeAny] at h
    cases hms : decodeAnyMembers ms with
    | error e => simp [hms, Except.map] at h
    | ok c1 =>
      simp only [hms, Except.map] at h
      cases h
      exact ⟨ms, rfl, hms⟩

/-- Only a JSON number decodes to a `float64`, the one `ParseFloat` gives. -/
theorem decodeAny_float64 (v : JSON) (t : Float64) (h : decodeAny v = .ok (.float64 t)) :
    ∃ literal neg digits exp10,
      v = .number literal neg digits exp10 ∧ parseFloat neg digits exp10 = some t := by
  cases v with
  | null => simp [decodeAny] at h
  | bool b => simp [decodeAny] at h
  | string s => simp [decodeAny] at h
  | number lit neg d e =>
    simp only [decodeAny] at h
    cases hp : parseFloat neg d e with
    | none => simp [hp] at h
    | some f =>
      simp only [hp] at h
      cases h
      exact ⟨lit, neg, d, e, rfl, hp⟩
  | array xs =>
    simp only [decodeAny] at h
    cases hxs : decodeAnyList xs <;> simp [hxs, Except.map] at h
  | object ms =>
    simp only [decodeAny] at h
    cases hms : decodeAnyMembers ms <;> simp [hms, Except.map] at h

/-- A number outside the range of `float64` is a decoding error that names the
literal, and the handler answers it with 500 and that text. -/
theorem handler_number_out_of_range :
    handler (scenario "k" "01310100" (.ok ⟨200, locationBody "Recife"⟩)
        (.ok ⟨200, .ok (.object [("current", .object [("temp_c",
          .number "1e999" false 1 999)])])⟩)) (cepQuery "01310100")
      = .returned ⟨some 500,
          [.bytes "json: cannot unmarshal number 1e999 into Go value of type float64"]⟩
          [.invokeGetLocationByZipCode "01310100", .send (locationRequest "01310100"),
           .invokeGetTemperatureByLocation "Recife" "k",
           .send ⟨"https://api.weatherapi.com/v1/current.json?q=Recife",
             [("accept", "application/json"), ("Content-Type", "application/json"),
              ("key", "k")]⟩] := by
  decide!

/-- What `GetTemperatureByLocation` returns once its request was built and sent
and answered with status 200: the outcome of decoding the body. -/
theorem GetTemperatureByLocation_of_200 (world : World) (location apiKey : String)
    (response : Response)
    (hreq : world.NewRequest (weatherRequest world location apiKey).url = none)
    (hdo : world.Do (weatherRequest world location apiKey) = .ok response)
    (hstatus : response.StatusCode = 200) :
    GetTemperatureByLocation world location apiKey =
      (match decodeAnyMap response.Body with
       | .error err => ((Float64.zero, some err), [.send (weatherRequest world location apiKey)])
       | .ok jsonResponse =>
         match mapIndex jsonResponse "current" with
         | some (.map current) =>
           match mapIndex current "temp_c" with
           | some (.float64 tempC) =>
             ((tempC, none), [.send (weatherRequest world location apiKey)])
           | _ => ((Float64.zero, none), [.send (weatherRequest world location apiKey)])
         | _ => ((Float64.zero, none), [.send (weatherRequest world location apiKey)])) := by
  unfold weatherRequest at hreq hdo
  unfold GetTemperatureByLocation
  have hst : ¬ response.StatusCode ≠ StatusOK := by
    rw [hstatus]
    decide
  simp only [hreq, hdo, if_neg hst]
  rfl

/-! ## Theorems -/

/-- C1: when configuration loading returns and the `cep` parameter is absent,
empty, or of a byte length other than 8, the handler answers 422 with body
`invalid zipcode` and its trace is empty: no resolver is invoked and no
request is sent. -/
theorem handler_invalid_zipcode (world : World) (query : Values) (r : conf × Option String)
    (hcfg : LoadConfig world "." = .ok r)
    (hcep : mapIndex query "cep" = none ∨ Values.Get query "cep" = "" ∨
      (Values.Get query "cep").utf8ByteSize ≠ 8) :
    handler world query
      = .returned ⟨some 422, [.bytes "invalid zipcode"]⟩ [] := by
  have hnone := LoadConfig_ok_none world "." r hcfg
  obtain ⟨cfg, e⟩ := r
  simp only at hnone
  subst hnone
  have hbad : Values.Get query "cep" = "" ∨ (Values.Get query "cep").utf8ByteSize ≠ 8 := by
    rcases hcep with h | h | h
    · exact Or.inl (Values_Get_absent query "cep" h)
    · exact Or.inl h
    · exact Or.inr h
  unfold handler
  simp only [hcfg]
  rw [if_pos hbad]
  rfl

theorem handler_invalid_zipcode_witness :
    handler (scenario "k" "1234567" (.error "unreachable") (.error "unreachable"))
        (cepQuery "1234567")
      = .returned ⟨some 422, [.bytes "invalid zipcode"]⟩ [] :=
  handler_invalid_zipcode _ _ (⟨"k"⟩, none) rfl (Or.inr (Or.inr (by decide)))

/-- C2: with a code of byte length 8, when `GetLocationByZipCode` returns the
empty string and no error, the handler answers 404 with body
`cannot find zipcode`, and its trace holds the invocation of the location
resolver and that resolver's requests only: `GetTemperatureByLocation` is not
invoked. -/
theorem handler_location_empty (world : World) (query : Values) (cfg : conf)
    (tr : List Event)
    (hcfg : LoadConfig world "." = .ok (cfg, none))
    (hlen : (Values.Get query "cep").utf8ByteSize = 8)
    (hloc : GetLocationByZipCode world (Values.Get query "cep") = (("", none), tr)) :
    handler world query
      = .returned ⟨some 404, [.bytes "cannot find zipcode"]⟩
          (.invokeGetLocationByZipCode (Values.Get query "cep") :: tr) ∧
    ∀ location apiKey, Event.invokeGetTemperatureByLocation location apiKey ∉
      Event.invokeGetLocationByZipCode (Values.Get query "cep") :: tr := by
  constructor
  · rw [handler_of_valid world query cfg hcfg hlen]
    simp only [hloc]
    rfl
  · intro location apiKey hmem
    have hno := GetLocationByZipCode_no_temperature world (Values.Get query "cep") location apiKey
    rw [hloc] at hno
    simp at hmem
    exact hno hmem

theorem handler_location_empty_witness :
    handler (scenario "k" "00000000" (.ok ⟨200, .ok (.object [])⟩) (.error "unreachable"))
        (cepQuery "00000000")
      = .returned ⟨some 404, [.bytes "cannot find zipcode"]⟩
          [.invokeGetLocationByZipCode "00000000",
           .send ⟨"https://viacep.com.br/ws/00000000/json/", []⟩] :=
  (handler_location_empty (scenario "k" "00000000" (.ok ⟨200, .ok (.object [])⟩)
    (.error "unreachable")) (cepQuery "00000000") ⟨"k"⟩ _ rfl (by decide) (by decide)).1

/-- C3: with a code of byte length 8, an error returned by
`GetLocationByZipCode`, or by `GetTemperatureByLocation` after a non-empty
location was resolved, is answered with status 500 and the error's text as
body; the trace ends with the events of the resolver that failed, so nothing
is invoked or sent after the failure. -/
theorem handler_resolver_error (world : World) (query : Values) (cfg : conf)
    (hcfg : LoadConfig world "." = .ok (cfg, none))
    (hlen : (Values.Get query "cep").utf8ByteSize = 8) :
    (∀ location err tr,
      GetLocationByZipCode world (Values.Get query "cep") = ((location, some err), tr) →
      handler world query
        = .returned ⟨some 500, [.bytes err]⟩
            (.invokeGetLocationByZipCode (Values.Get query "cep") :: tr)) ∧
    (∀ location tr temperatureC err tr2,
      GetLocationByZipCode world (Values.Get query "cep") = ((location, none), tr) →
      location ≠ "" →
      GetTemperatureByLocation world location cfg.WeatherApiKey = ((temperatureC, some err), tr2) →
      handler world query
        = .returned ⟨some 500, [.bytes err]⟩
            (.invokeGetLocationByZipCode (Values.Get query "cep") :: tr ++
              .invokeGetTemperatureByLocation location cfg.WeatherApiKey :: tr2)) := by
  constructor
  · intro location err tr hloc
    rw [handler_of_valid world query cfg hcfg hlen]
    simp only [hloc]
    rfl
  · intro location tr temperatureC err tr2 hloc hne htemp
    rw [handler_of_valid world query cfg hcfg hlen]
    simp only [hloc, if_neg hne, htemp]
    rfl

theorem handler_resolver_error_witness :
    handler (scenario "k" "01310100" (.error "dial tcp: timeout") (.error "unreachable"))
        (cepQuery "01310100")
      = .returned ⟨some 500, [.bytes "dial tcp: timeout"]⟩
          [.invokeGetLocationByZipCode "01310100",
           .send ⟨"https://viacep.com.br/ws/01310100/json/", []⟩] ∧
    handler (scenario "k" "01310100" (.ok ⟨200, locationBody "Recife"⟩) (.error "EOF"))
        (cepQuery "01310100")
      = .returned ⟨some 500, [.bytes "EOF"]⟩
          [.invokeGetLocationByZipCode "01310100",
           .send ⟨"https://viacep.com.br/ws/01310100/json/", []⟩,
           .invokeGetTemperatureByLocation "Recife" "k",
           .send ⟨"https://api.weatherapi.com/v1/current.json?q=Recife",
             [("accept", "application/json"), ("Content-Type", "application/json"), ("key", "k")]⟩] :=
  ⟨(handler_resolver_error (scenario "k" "01310100" (.error "dial tcp: timeout")
      (.error "unreachable")) (cepQuery "01310100") ⟨"k"⟩ rfl (by decide)).1 "" _ _ (by decide),
   (handler_resolver_error (scenario "k" "01310100" (.ok ⟨200, locationBody "Recife"⟩)
      (.error "EOF")) (cepQuery "01310100") ⟨"k"⟩ rfl (by decide)).2 "Recife" _ Float64.zero _ _
      rfl (by decide) rfl⟩

/-- C5: when the request to the location service is built and sent and the
service answers with a status outside 200..299 (such as 400),
`GetLocationByZipCode` returns the empty location and no error, and for a code
of byte length 8 the handler answers 404 with body `cannot find zipcode`,
its trace holding the location lookup only: the weather service is not called. -/
theorem location_non_success_not_found (world : World) (query : Values) (cfg : conf)
    (response : Response)
    (hcfg : LoadConfig world "." = .ok (cfg, none))
    (hlen : (Values.Get query "cep").utf8ByteSize = 8)
    (hreq : world.NewRequest ("https://viacep.com.br/ws/" ++ Values.Get query "cep" ++ "/json/") = none)
    (hdo : world.Do ⟨"https://viacep.com.br/ws/" ++ Values.Get query "cep" ++ "/json/", []⟩
      = .ok response)
    (hstatus : ¬ (200 ≤ response.StatusCode ∧ response.StatusCode ≤ 299)) :
    GetLocationByZipCode world (Values.Get query "cep")
      = (("", none),
         [.send ⟨"https://viacep.com.br/ws/" ++ Values.Get query "cep" ++ "/json/", []⟩]) ∧
    handler world query
      = .returned ⟨some 404, [.bytes "cannot find zipcode"]⟩
          [.invokeGetLocationByZipCode (Values.Get query "cep"),
           .send ⟨"https://viacep.com.br/ws/" ++ Values.Get query "cep" ++ "/json/", []⟩] := by
  have hne : response.StatusCode ≠ StatusOK := by
    intro h
    apply hstatus
    rw [h]
    decide
  have hloc : GetLocationByZipCode world (Values.Get query "cep")
      = (("", none),
         [.send ⟨"https://viacep.com.br/ws/" ++ Values.Get query "cep" ++ "/json/", []⟩]) := by
    unfold GetLocationByZipCode
    simp only [hreq, hdo, if_pos hne]
  refine ⟨hloc, ?_⟩
  rw [handler_of_valid world query cfg hcfg hlen]
  simp only [hloc]
  rfl

theorem location_non_success_not_found_witness :
    handler (scenario "k" "00000000" (.ok ⟨400, .ok (.object [("erro", .bool true)])⟩)
        (.error "unreachable")) (cepQuery "00000000")
      = .returned ⟨some 404, [.bytes "cannot find zipcode"]⟩
          [.invokeGetLocationByZipCode "00000000",
           .send ⟨"https://viacep.com.br/ws/00000000/json/", []⟩] :=
  (location_non_success_not_found (scenario "k" "00000000"
    (.ok ⟨400, .ok (.object [("erro", .bool true)])⟩) (.error "unreachable"))
    (cepQuery "00000000") ⟨"k"⟩ ⟨400, .ok (.object [("erro", .bool true)])⟩
    rfl (by decide) rfl rfl (by decide)).2

/-- C9: with a code of byte length 8 and a non-empty resolved location, when
the request to the weather service is built and sent and the service answers
with a status outside 200..299, `GetTemperatureByLocation` returns zero and no
error, and the handler answers 200 with temp_C = 0, temp_K = 273.15 and
temp_F = 32. -/
theorem weather_non_success_zero (world : World) (query : Values) (cfg : conf)
    (location : String) (tr : List Event) (response : Response)
    (hcfg : LoadConfig world "." = .ok (cfg, none))
    (hlen : (Values.Get query "cep").utf8ByteSize = 8)
    (hloc : GetLocationByZipCode world (Values.Get query "cep") = ((location, none), tr))
    (hne : location ≠ "")
    (hreq : world.NewRequest (weatherRequest world location cfg.WeatherApiKey).url = none)
    (hdo : world.Do (weatherRequest world location cfg.WeatherApiKey) = .ok response)
    (hstatus : ¬ (200 ≤ response.StatusCode ∧ response.StatusCode ≤ 299)) :
    GetTemperatureByLocation world location cfg.WeatherApiKey
      = ((Float64.zero, none), [.send (weatherRequest world location cfg.WeatherApiKey)]) ∧
    handler world query
      = .returned ⟨some 200, [.jsonLine [("temp_C", Float64.ofNat 0),
            ("temp_K", Float64.ofRatio false 27315 100), ("temp_F", Float64.ofNat 32)]]⟩
          (.invokeGetLocationByZipCode (Values.Get query "cep") :: tr ++
            [.invokeGetTemperatureByLocation location cfg.WeatherApiKey,
             .send (weatherRequest world location cfg.WeatherApiKey)]) := by
  have hstat : response.StatusCode ≠ StatusOK := by
    intro h
    apply hstatus
    rw [h]
    decide
  have htemp : GetTemperatureByLocation world location cfg.WeatherApiKey
      = ((Float64.zero, none), [.send (weatherRequest world location cfg.WeatherApiKey)]) := by
    unfold weatherRequest at hreq hdo
    unfold GetTemperatureByLocation
    simp only [hreq, hdo, if_pos hstat]
    rfl
  refine ⟨htemp, ?_⟩
  rw [handler_of_valid world query cfg hcfg hlen]
  simp only [hloc, if_neg hne, htemp]
  have hK : tempK Float64.zero = Float64.ofRatio false 27315 100 := by decide!
  have hF : tempF Float64.zero = Float64.ofNat 32 := by decide!
  have h0 : Float64.zero = Float64.ofNat 0 := by decide!
  have hfin : (Float64.ofRatio false 27315 100).isFinite = true ∧
      (Float64.ofNat 32).isFinite = true ∧ (Float64.ofNat 0).isFinite = true := by decide!
  rw [hK, hF, h0]
  simp [ResponseWriter.Encode, ResponseWriter.WriteHeader, ResponseWriter.Write,
    ResponseWriter.new, hfin.1, hfin.2.1, hfin.2.2, StatusOK]

theorem weather_non_success_zero_witness :
    handler (scenario "wrong-key" "01310100" (.ok ⟨200, locationBody "Recife"⟩)
        (.ok ⟨401, .error "unread"⟩)) (cepQuery "01310100")
      = .returned ⟨some 200, [.jsonLine [("temp_C", Float64.ofNat 0),
            ("temp_K", Float64.ofRatio false 27315 100), ("temp_F", Float64.ofNat 32)]]⟩
          [.invokeGetLocationByZipCode "01310100", .send (locationRequest "01310100"),
           .invokeGetTemperatureByLocation "Recife" "wrong-key",
           .send ⟨"https://api.weatherapi.com/v1/current.json?q=Recife",
             [("accept", "application/json"), ("Content-Type", "application/json"),
              ("key", "wrong-key")]⟩] :=
  (weather_non_success_zero (scenario "wrong-key" "01310100" (.ok ⟨200, locationBody "Recife"⟩)
    (.ok ⟨401, .error "unread"⟩)) (cepQuery "01310100") ⟨"wrong-key"⟩ "Recife"
    [.send (locationRequest "01310100")] ⟨401, .error "unread"⟩
    rfl (by decide) rfl (by decide) rfl rfl (by decide)).2

/-- The status sent by the success path is 200 whether or not the encoder
wrote the body. -/
theorem status_Encode (fields : List (String × Float64)) :
    ((ResponseWriter.new.WriteHeader StatusOK).Encode fields).status = some 200 := by
  unfold ResponseWriter.Encode
  split <;> rfl

/-- C10, counterexample: the configuration loads with an empty `WeatherApiKey`,
and the handler still invokes `GetTemperatureByLocation`, with the empty key,
and answers 200 (here the weather service rejects the request with 401, which
the resolver turns into a zero temperature). -/
theorem handler_empty_credential_continues :
    LoadConfig (scenario "" "01310100" (.ok ⟨200, locationBody "Recife"⟩)
        (.ok ⟨401, .error "unread"⟩)) "." = .ok (⟨""⟩, none) ∧
    handler (scenario "" "01310100" (.ok ⟨200, locationBody "Recife"⟩)
        (.ok ⟨401, .error "unread"⟩)) (cepQuery "01310100")
      = .returned ⟨some 200, [.jsonLine [("temp_C", Float64.ofNat 0),
            ("temp_K", Float64.ofRatio false 27315 100), ("temp_F", Float64.ofNat 32)]]⟩
          [.invokeGetLocationByZipCode "01310100", .send (locationRequest "01310100"),
           .invokeGetTemperatureByLocation "Recife" "",
           .send ⟨"https://api.weatherapi.com/v1/current.json?q=Recife",
             [("accept", "application/json"), ("Content-Type", "application/json"),
              ("key", "")]⟩] := by
  constructor
  · rfl
  · decide!

/-- C10, amended: the handler does not inspect the credential. When the
configuration loads with an empty `WeatherApiKey`, the code has byte length 8
and a non-empty location is resolved, the handler invokes
`GetTemperatureByLocation` with the empty key, and it answers 200 whenever
that resolver returns no error. -/
theorem handler_empty_credential (world : World) (query : Values) (cfg : conf)
    (location : String) (tr : List Event)
    (hcfg : LoadConfig world "." = .ok (cfg, none))
    (hkey : cfg.WeatherApiKey = "")
    (hlen : (Values.Get query "cep").utf8ByteSize = 8)
    (hloc : GetLocationByZipCode world (Values.Get query "cep") = ((location, none), tr))
    (hne : location ≠ "") :
    ∃ w, handler world query
      = .returned w (.invokeGetLocationByZipCode (Values.Get query "cep") :: tr ++
          .invokeGetTemperatureByLocation location "" ::
            (GetTemperatureByLocation world location "").2) ∧
      ((GetTemperatureByLocation world location "").1.2 = none → w.status = some 200) := by
  rw [handler_of_valid world query cfg hcfg hlen]
  simp only [hloc, if_neg hne, hkey]
  rcases hres : (GetTemperatureByLocation world location "").1 with ⟨t, _ | err⟩
  · refine ⟨_, rfl, ?_⟩
    intro _
    exact status_Encode _
  · refine ⟨_, rfl, ?_⟩
    intro h
    cases h

theorem handler_empty_credential_witness :
    ∃ w, handler (scenario "" "01310100" (.ok ⟨200, locationBody "Recife"⟩)
        (.ok ⟨200, weatherBody false 25 0⟩)) (cepQuery "01310100")
      = .returned w (.invokeGetLocationByZipCode "01310100" ::
          [.send (locationRequest "01310100")] ++
          .invokeGetTemperatureByLocation "Recife" "" ::
            (GetTemperatureByLocation (scenario "" "01310100" (.ok ⟨200, locationBody "Recife"⟩)
              (.ok ⟨200, weatherBody false 25 0⟩)) "Recife" "").2) ∧
      ((GetTemperatureByLocation (scenario "" "01310100" (.ok ⟨200, locationBody "Recife"⟩)
          (.ok ⟨200, weatherBody false 25 0⟩)) "Recife" "").1.2 = none → w.status = some 200) :=
  handler_empty_credential (scenario "" "01310100" (.ok ⟨200, locationBody "Recife"⟩)
    (.ok ⟨200, weatherBody false 25 0⟩)) (cepQuery "01310100") ⟨""⟩ "Recife"
    [.send (locationRequest "01310100")] rfl rfl (by decide) rfl (by decide)

/-- C8, counterexample: a code of exactly 8 characters that are not ASCII
(16 bytes) is answered with 422, and a code of 4 characters that takes 8 bytes
passes the validation and is handed to `GetLocationByZipCode`. -/
theorem handler_validation_counts_bytes :
    ("áááááááá".length = 8 ∧
     handler (scenario "k" "áááááááá" (.ok ⟨200, locationBody "Recife"⟩) (.error "unreachable"))
        (cepQuery "áááááááá")
      = .returned ⟨some 422, [.bytes "invalid zipcode"]⟩ []) ∧
    ("éééé".length = 4 ∧
     handler (scenario "k" "éééé" (.ok ⟨404, .error "unread"⟩) (.error "unreachable"))
        (cepQuery "éééé")
      = .returned ⟨some 404, [.bytes "cannot find zipcode"]⟩
          [.invokeGetLocationByZipCode "éééé", .send (locationRequest "éééé")]) := by
  decide!

/-- C8, amended: the validation accepts a code if and only if its byte length
(Go's `len`) is 8, whatever the bytes are. A code of byte length 8 is not
answered with 422 and `GetLocationByZipCode` is invoked with exactly that
code; any other code is answered with 422 and nothing is invoked. -/
theorem handler_validation_byte_length (world : World) (query : Values) (cfg : conf)
    (hcfg : LoadConfig world "." = .ok (cfg, none)) :
    ((Values.Get query "cep").utf8ByteSize = 8 →
      ∃ w tr, handler world query
          = .returned w (.invokeGetLocationByZipCode (Values.Get query "cep") :: tr) ∧
        w.status ≠ some 422) ∧
    ((Values.Get query "cep").utf8ByteSize ≠ 8 →
      handler world query = .returned ⟨some 422, [.bytes "invalid zipcode"]⟩ []) := by
  constructor
  · intro hlen
    rw [handler_of_valid world query cfg hcfg hlen]
    simp only
    rcases (GetLocationByZipCode world (Values.Get query "cep")).1 with ⟨location, _ | err⟩
    · by_cases hloc : location = ""
      · simp only [if_pos hloc]
        exact ⟨_, _, rfl, by decide⟩
      · simp only [if_neg hloc]
        rcases (GetTemperatureByLocation world location cfg.WeatherApiKey).1 with ⟨t, _ | err⟩
        · refine ⟨_, _, rfl, ?_⟩
          rw [status_Encode]
          decide
        · refine ⟨_, _, rfl, ?_⟩
          show (some 500 : Option Nat) ≠ some 422
          decide
    · refine ⟨_, _, rfl, ?_⟩
      show (some 500 : Option Nat) ≠ some 422
      decide
  · intro hlen
    unfold handler
    simp only [hcfg]
    rw [if_pos (Or.inr hlen)]
    rfl

theorem handler_validation_byte_length_witness :
    (("ABCD-xyz".utf8ByteSize = 8 →
      ∃ w tr, handler (scenario "k" "ABCD-xyz" (.error "no route") (.error "unreachable"))
            (cepQuery "ABCD-xyz")
          = .returned w (.invokeGetLocationByZipCode "ABCD-xyz" :: tr) ∧
        w.status ≠ some 422) ∧
    ("ABCD-xyz".utf8ByteSize ≠ 8 →
      handler (scenario "k" "ABCD-xyz" (.error "no route") (.error "unreachable"))
          (cepQuery "ABCD-xyz")
        = .returned ⟨some 422, [.bytes "invalid zipcode"]⟩ [])) ∧
    "ABCD-xyz".utf8ByteSize = 8 :=
  ⟨handler_validation_byte_length (scenario "k" "ABCD-xyz" (.error "no route")
    (.error "unreachable")) (cepQuery "ABCD-xyz") ⟨"k"⟩ rfl, by decide⟩

/-- C6, counterexample: a 2xx status other than 200 is not decoded (with
status 201 a body `{"localidade": "Recife"}` yields the empty location, and an
undecodable body yields no error), and with status 200 a `null` value, which
is not a string, is no error. -/
theorem location_2xx_not_decoded :
    GetLocationByZipCode (scenario "k" "01310100" (.ok ⟨201, locationBody "Recife"⟩)
        (.error "unreachable")) "01310100"
      = (("", none), [.send (locationRequest "01310100")]) ∧
    GetLocationByZipCode (scenario "k" "01310100" (.ok ⟨201, .error "unexpected EOF"⟩)
        (.error "unreachable")) "01310100"
      = (("", none), [.send (locationRequest "01310100")]) ∧
    GetLocationByZipCode (scenario "k" "01310100"
        (.ok ⟨200, .ok (.object [("localidade", .null)])⟩) (.error "unreachable")) "01310100"
      = (("", none), [.send (locationRequest "01310100")]) := by
  decide!

/-- C6, amended: once the request to the location service was built and sent,
an answer with any status other than 200 (the other 2xx ones included) is not
decoded and gives the empty location and no error, whatever its body. With
status 200 `GetLocationByZipCode` decodes the body as a
flat string-to-string mapping. If the body is a JSON object whose values are
all strings or `null`, it returns the string of the last `localidade` member
(`""` when the member is absent or `null`) and no error; a top-level `null`
gives `""` and no error; a body that cannot be read as JSON gives that error;
an object with a value that is neither a string nor `null`, and a value that
is neither an object nor `null`, give an error. -/
theorem location_decode_200 (world : World) (zipCode : String) (response : Response)
    (hreq : world.NewRequest (locationRequest zipCode).url = none)
    (hdo : world.Do (locationRequest zipCode) = .ok response) :
    (response.StatusCode ≠ 200 →
      GetLocationByZipCode world zipCode = (("", none), [.send (locationRequest zipCode)])) ∧
    (response.StatusCode = 200 →
    (∀ members, response.Body = .ok (.object members) →
      (∀ kv ∈ members, kv.2.isStringOrNull = true) →
      GetLocationByZipCode world zipCode
        = ((((mapIndex members "localidade").map JSON.asString).getD "", none),
           [.send (locationRequest zipCode)])) ∧
    (response.Body = .ok .null →
      GetLocationByZipCode world zipCode = (("", none), [.send (locationRequest zipCode)])) ∧
    (∀ err, response.Body = .error err →
      GetLocationByZipCode world zipCode
        = (("", some err), [.send (locationRequest zipCode)])) ∧
    (∀ members, response.Body = .ok (.object members) →
      (∃ kv ∈ members, kv.2.isStringOrNull = false) →
      ∃ err, GetLocationByZipCode world zipCode
        = (("", some err), [.send (locationRequest zipCode)])) ∧
    (∀ v, response.Body = .ok v → v.isObjectOrNull = false →
      ∃ err, GetLocationByZipCode world zipCode
        = (("", some err), [.send (locationRequest zipCode)]))) := by
  refine ⟨?_, ?_⟩
  · intro hstatus
    have hreq1 := hreq
    have hdo1 := hdo
    unfold locationRequest at hreq1 hdo1 ⊢
    unfold GetLocationByZipCode
    have hst : response.StatusCode ≠ StatusOK := hstatus
    simp only [hreq1, hdo1, if_pos hst]
  intro hstatus
  have h200 := GetLocationByZipCode_of_200 world zipCode response hreq hdo hstatus
  refine ⟨?_, ?_, ?_, ?_, ?_⟩
  · intro members hbody hflat
    rw [h200, hbody]
    simp only [decodeStringMap, decodeStringMembers_flat members hflat, mapIndex_map]
  · intro hbody
    rw [h200, hbody]
    rfl
  · intro err hbody
    rw [h200, hbody]
    rfl
  · intro members hbody hbad
    obtain ⟨e, he⟩ := decodeStringMembers_not_flat members hbad
    refine ⟨e, ?_⟩
    rw [h200, hbody]
    simp only [decodeStringMap, he]
  · intro v hbody hv
    rw [h200, hbody]
    cases v with
    | null => simp [JSON.isObjectOrNull] at hv
    | object ms => simp [JSON.isObjectOrNull] at hv
    | bool b => exact ⟨_, rfl⟩
    | number lit neg d e => exact ⟨_, rfl⟩
    | string s => exact ⟨_, rfl⟩
    | array xs => exact ⟨_, rfl⟩

theorem location_decode_200_witness :
    GetLocationByZipCode (scenario "k" "01310100"
        (.ok ⟨200, .ok (.object [("cep", .string "01310-100"), ("localidade", .string "São Paulo"),
          ("complemento", .null)])⟩) (.error "unreachable")) "01310100"
      = (("São Paulo", none), [.send (locationRequest "01310100")]) ∧
    (∃ err, GetLocationByZipCode (scenario "k" "99999999"
        (.ok ⟨200, .ok (.object [("erro", .bool true)])⟩) (.error "unreachable")) "99999999"
      = (("", some err), [.send (locationRequest "99999999")])) ∧
    GetLocationByZipCode (scenario "k" "01310100" (.ok ⟨202, locationBody "São Paulo"⟩)
        (.error "unreachable")) "01310100"
      = (("", none), [.send (locationRequest "01310100")]) :=
  ⟨((location_decode_200 (scenario "k" "01310100"
      (.ok ⟨200, .ok (.object [("cep", .string "01310-100"), ("localidade", .string "São Paulo"),
        ("complemento", .null)])⟩) (.error "unreachable")) "01310100" _ rfl rfl).2 rfl).1 _ rfl
      (by decide),
   ((location_decode_200 (scenario "k" "99999999"
      (.ok ⟨200, .ok (.object [("erro", .bool true)])⟩) (.error "unreachable")) "99999999" _
      rfl rfl).2 rfl).2.2.2.1 _ rfl (by decide),
   (location_decode_200 (scenario "k" "01310100" (.ok ⟨202, locationBody "São Paulo"⟩)
      (.error "unreachable")) "01310100" ⟨202, locationBody "São Paulo"⟩ rfl rfl).1 (by decide)⟩

/-- C7: once the request to the weather service was built and sent and
answered with status 200 and a body that decodes to a JSON object,
`GetTemperatureByLocation` returns no error. The temperature is the
`float64` of the number at `current.temp_c` when `current` is an object
holding a number `temp_c` (the number's sign and its value correctly rounded
to binary64), and zero in every other case. -/
theorem temperature_decode_200 (world : World) (location apiKey : String)
    (response : Response) (members : List (String × JSON)) (m : List (String × GoAny))
    (hreq : world.NewRequest (weatherRequest world location apiKey).url = none)
    (hdo : world.Do (weatherRequest world location apiKey) = .ok response)
    (hstatus : response.StatusCode = 200)
    (hbody : response.Body = .ok (.object members))
    (hdec : decodeAnyMembers members = .ok m) :
    (∀ current literal neg digits exp10,
      mapIndex members "current" = some (.object current) →
      mapIndex current "temp_c" = some (.number literal neg digits exp10) →
      ∃ tempC, parseFloat neg digits exp10 = some tempC ∧
        (∃ k, tempC = .finite neg k ∧
          IsRoundedTo (literalUnits digits exp10).1 (literalUnits digits exp10).2 k) ∧
        GetTemperatureByLocation world location apiKey
          = ((tempC, none), [.send (weatherRequest world location apiKey)])) ∧
    ((¬ ∃ current literal neg digits exp10,
        mapIndex members "current" = some (.object current) ∧
        mapIndex current "temp_c" = some (.number literal neg digits exp10)) →
      GetTemperatureByLocation world location apiKey
        = ((Float64.zero, none), [.send (weatherRequest world location apiKey)])) := by
  have h200 := GetTemperatureByLocation_of_200 world location apiKey response hreq hdo hstatus
  rw [hbody] at h200
  simp only [decodeAnyMap, hdec] at h200
  constructor
  · intro current literal neg digits exp10 hcur htemp
    rcases decodeAnyMembers_mapIndex members "current" m hdec with ⟨h1, _⟩ | ⟨v, a, h1, h2, h3⟩
    · rw [hcur] at h1
      cases h1
    · rw [hcur] at h1
      cases h1
      simp only [decodeAny] at h2
      cases hc : decodeAnyMembers current with
      | error e => simp [hc, Except.map] at h2
      | ok c =>
        simp only [hc, Except.map] at h2
        cases h2
        rcases decodeAnyMembers_mapIndex current "temp_c" c hc with ⟨g1, _⟩ | ⟨w, b, g1, g2, g3⟩
        · rw [htemp] at g1
          cases g1
        · rw [htemp] at g1
          cases g1
          simp only [decodeAny] at g2
          cases hp : parseFloat neg digits exp10 with
          | none => simp [hp] at g2
          | some t =>
            simp only [hp] at g2
            cases g2
            refine ⟨t, rfl, parseFloat_spec neg digits exp10 t hp, ?_⟩
            rw [h200]
            simp only [h3, g3]
  · intro hno
    rw [h200]
    rcases decodeAnyMembers_mapIndex members "current" m hdec with ⟨_, h2⟩ | ⟨v, a, h1, h2, h3⟩
    · simp only [h2]
    · cases a with
      | map c =>
        obtain ⟨current, hv, hc⟩ := decodeAny_map v c h2
        subst hv
        simp only [h3]
        rcases decodeAnyMembers_mapIndex current "temp_c" c hc with ⟨_, g2⟩ | ⟨w, b, g1, g2, g3⟩
        · simp only [g2]
        · cases b with
          | float64 t =>
            obtain ⟨literal, neg, digits, exp10, hw, _⟩ := decodeAny_float64 w t g2
            subst hw
            exact absurd ⟨current, literal, neg, digits, exp10, h1, g1⟩ hno
          | nil => simp only [g3]
          | bool b => simp only [g3]
          | string s => simp only [g3]
          | slice xs => simp only [g3]
          | map c2 => simp only [g3]
      | nil => simp only [h3]
      | bool b => simp only [h3]
      | float64 t => simp only [h3]
      | string s => simp only [h3]
      | slice xs => simp only [h3]

theorem temperature_decode_200_witness :
    GetTemperatureByLocation (scenario "k" "01310100" (.error "unused")
        (.ok ⟨200, .ok (.object [("current", .object [("temp_c",
          .number "36.6" false 366 (-1))])])⟩)) "Recife" "k"
      = ((Float64.finite false (5150992073805005 * 2 ^ 1027), none),
         [.send ⟨"https://api.weatherapi.com/v1/current.json?q=Recife",
            [("accept", "application/json"), ("Content-Type", "application/json"),
             ("key", "k")]⟩]) ∧
    GetTemperatureByLocation (scenario "k" "01310100" (.error "unused")
        (.ok ⟨200, .ok (.object [("current", .object [("temp_c", .string "36.6")])])⟩))
        "Recife" "k"
      = ((Float64.zero, none), [.send ⟨"https://api.weatherapi.com/v1/current.json?q=Recife",
            [("accept", "application/json"), ("Content-Type", "application/json"),
             ("key", "k")]⟩]) ∧
    GetTemperatureByLocation (scenario "k" "01310100" (.error "unused")
        (.ok ⟨200, .ok (.object [("location", .object [("name", .string "Recife")]),
          ("current", .object [("temp_c", .number "-4e1" true 4 1),
            ("is_day", .number "1" false 1 0)])])⟩)) "Recife" "k"
      = ((Float64.finite true (40 * 2 ^ 1074), none),
         [.send ⟨"https://api.weatherapi.com/v1/current.json?q=Recife",
            [("accept", "application/json"), ("Content-Type", "application/json"),
             ("key", "k")]⟩]) ∧
    GetTemperatureByLocation (scenario "k" "01310100" (.error "unused")
        (.ok ⟨200, .ok (.object [("current", .object [("temp_c",
          .number "2.5e1" false 25 0)])])⟩)) "Recife" "k"
      = ((Float64.finite false (25 * 2 ^ 1074), none),
         [.send ⟨"https://api.weatherapi.com/v1/current.json?q=Recife",
            [("accept", "application/json"), ("Content-Type", "application/json"),
             ("key", "k")]⟩]) :=
  ⟨(by
      obtain ⟨tempC, hp, _, h⟩ := (temperature_decode_200 (scenario "k" "01310100" (.error "unused")
        (.ok ⟨200, .ok (.object [("current", .object [("temp_c",
          .number "36.6" false 366 (-1))])])⟩)) "Recife" "k"
        ⟨200, .ok (.object [("current", .object [("temp_c", .number "36.6" false 366 (-1))])])⟩
        [("current", .object [("temp_c", .number "36.6" false 366 (-1))])]
        [("current", .map [("temp_c", .float64 (Float64.ofRatio false 366 10))])]
        rfl rfl rfl rfl (by
          have hp : parseFloat false 366 (-1) = some (Float64.ofRatio false 366 10) := by decide!
          simp [decodeAnyMembers, decodeAny, hp, Except.map])).1 _ "36.6" false 366 (-1) rfl rfl
      have hvalue : parseFloat false 366 (-1)
          = some (Float64.finite false (5150992073805005 * 2 ^ 1027)) := by decide!
      rw [hvalue] at hp
      cases hp
      exact h),
   (temperature_decode_200 (scenario "k" "01310100" (.error "unused")
      (.ok ⟨200, .ok (.object [("current", .object [("temp_c", .string "36.6")])])⟩))
      "Recife" "k" ⟨200, .ok (.object [("current", .object [("temp_c", .string "36.6")])])⟩
      [("current", .object [("temp_c", .string "36.6")])]
      [("current", .map [("temp_c", .string "36.6")])]
      rfl rfl rfl rfl rfl).2 (by
        rintro ⟨current, literal, neg, digits, exp10, h1, h2⟩
        simp [mapIndex] at h1
        subst h1
        simp [mapIndex] at h2),
   by decide!, by decide!⟩

/-- The Kelvin value is finite only for a finite Celsius value. -/
theorem isFinite_of_tempK (temperatureC : Float64) (hK : (tempK temperatureC).isFinite = true) :
    temperatureC.isFinite = true := by
  have hconst : (Float64.ofRatio false 27315 100).isFinite = true := by decide!
  unfold tempK at hK
  cases hc : Float64.ofRatio false 27315 100 with
  | finite b k =>
    rw [hc] at hK
    cases temperatureC with
    | finite a j => rfl
    | inf a => simp [Float64.add, Float64.isFinite] at hK
    | nan => simp [Float64.add, Float64.isFinite] at hK
  | inf b => simp [hc, Float64.isFinite] at hconst
  | nan => simp [hc, Float64.isFinite] at hconst

/-- C4, counterexample: the weather service reports `1e308`, a finite
`float64`; `GetTemperatureByLocation` returns it with no error, the Fahrenheit
conversion overflows to `+Inf`, the encoder refuses the map, and the handler
answers 200 with an empty body instead of the three values. -/
theorem handler_success_overflow_empty_body :
    GetTemperatureByLocation (scenario "k" "01310100" (.ok ⟨200, locationBody "Recife"⟩)
        (.ok ⟨200, weatherBody false 1 308⟩)) "Recife" "k"
      = ((Float64.ofRatio false (10 ^ 308) 1, none),
         [.send ⟨"https://api.weatherapi.com/v1/current.json?q=Recife",
            [("accept", "application/json"), ("Content-Type", "application/json"),
             ("key", "k")]⟩]) ∧
    (Float64.ofRatio false (10 ^ 308) 1).isFinite = true ∧
    tempF (Float64.ofRatio false (10 ^ 308) 1) = Float64.inf false ∧
    handler (scenario "k" "01310100" (.ok ⟨200, locationBody "Recife"⟩)
        (.ok ⟨200, weatherBody false 1 308⟩)) (cepQuery "01310100")
      = .returned ⟨some 200, []⟩
          [.invokeGetLocationByZipCode "01310100", .send (locationRequest "01310100"),
           .invokeGetTemperatureByLocation "Recife" "k",
           .send ⟨"https://api.weatherapi.com/v1/current.json?q=Recife",
             [("accept", "application/json"), ("Content-Type", "application/json"),
              ("key", "k")]⟩] := by
  decide!

/-- C4, amended: with a code of byte length 8, a non-empty resolved location
and a temperature resolver returning Celsius value `C` with no error, the
handler answers 200, and whenever the Kelvin and Fahrenheit values are finite
`float64` numbers the body holds exactly temp_C = C, temp_K = C + 273.15 and
temp_F = (C * 9 / 5) + 32, computed in `float64`. -/
theorem handler_success (world : World) (query : Values) (cfg : conf)
    (location : String) (tr tr2 : List Event) (temperatureC : Float64)
    (hcfg : LoadConfig world "." = .ok (cfg, none))
    (hlen : (Values.Get query "cep").utf8ByteSize = 8)
    (hloc : GetLocationByZipCode world (Values.Get query "cep") = ((location, none), tr))
    (hne : location ≠ "")
    (htemp : GetTemperatureByLocation world location cfg.WeatherApiKey
      = ((temperatureC, none), tr2))
    (hK : (tempK temperatureC).isFinite = true)
    (hF : (tempF temperatureC).isFinite = true) :
    handler world query
      = .returned ⟨some 200, [.jsonLine [("temp_C", temperatureC),
            ("temp_K", Float64.add temperatureC (Float64.ofRatio false 27315 100)),
            ("temp_F", Float64.add (Float64.div (Float64.mul temperatureC (Float64.ofNat 9))
              (Float64.ofNat 5)) (Float64.ofNat 32))]]⟩
          (.invokeGetLocationByZipCode (Values.Get query "cep") :: tr ++
            .invokeGetTemperatureByLocation location cfg.WeatherApiKey :: tr2) := by
  have hC := isFinite_of_tempK temperatureC hK
  rw [handler_of_valid world query cfg hcfg hlen]
  simp only [hloc, if_neg hne, htemp]
  simp only [ResponseWriter.Encode, List.all_cons, List.all_nil, hC, hK, hF, Bool.and_self,
    if_true]
  rfl

theorem handler_success_witness :
    handler (scenario "k" "01310100" (.ok ⟨200, locationBody "São Paulo"⟩)
        (.ok ⟨200, weatherBody false 250 (-1)⟩)) (cepQuery "01310100")
      = .returned ⟨some 200, [.jsonLine [("temp_C", Float64.ofNat 25),
            ("temp_K", Float64.add (Float64.ofNat 25) (Float64.ofRatio false 27315 100)),
            ("temp_F", Float64.add (Float64.div (Float64.mul (Float64.ofNat 25) (Float64.ofNat 9))
              (Float64.ofNat 5)) (Float64.ofNat 32))]]⟩
          (.invokeGetLocationByZipCode "01310100" :: [.send (locationRequest "01310100")] ++
            .invokeGetTemperatureByLocation "São Paulo" "k" ::
            [.send ⟨"https://api.weatherapi.com/v1/current.json?q=São Paulo",
              [("accept", "application/json"), ("Content-Type", "application/json"),
               ("key", "k")]⟩]) ∧
    (tempK (Float64.ofNat 25) = Float64.ofRatio false 29815 100 ∧
     tempF (Float64.ofNat 25) = Float64.ofNat 77) ∧
    (tempK (Float64.ofNat 0) = Float64.ofRatio false 27315 100 ∧
     tempF (Float64.ofNat 0) = Float64.ofNat 32) ∧
    (tempK (Float64.ofNat 100) = Float64.ofRatio false 37315 100 ∧
     tempF (Float64.ofNat 100) = Float64.ofNat 212) ∧
    (tempK (Float64.ofRatio true 40 1) = Float64.ofRatio false 23314999999999998 (10 ^ 14) ∧
     tempF (Float64.ofRatio true 40 1) = Float64.ofRatio true 40 1) ∧
    (tempK (Float64.ofRatio false 366 10) = Float64.ofRatio false 30975 100 ∧
     tempF (Float64.ofRatio false 366 10) = Float64.ofRatio false 9788000000000001 (10 ^ 14)) :=
  ⟨handler_success (scenario "k" "01310100" (.ok ⟨200, locationBody "São Paulo"⟩)
      (.ok ⟨200, weatherBody false 250 (-1)⟩)) (cepQuery "01310100") ⟨"k"⟩ "São Paulo"
      [.send (locationRequest "01310100")] _ (Float64.ofNat 25)
      rfl (by decide) rfl (by decide) (by decide!) (by decide!) (by decide!),
   by decide!, by decide!, by decide!, by decide!, by decide!⟩


end CloudRun
